import Mathlib

/-!
Verification development for the courseware generation pipeline
(`src/backend/src/services/gemini.ts` and
`src/backend/src/templates/courseware-html.ts`), shallowly embedded in Lean.

Modelling conventions:
* TypeScript interfaces become structures (`src/backend/src/types.ts`).
* `randomUUID()` is modelled as reading from an ambient id stream
  `uuid : Nat → String` at an explicit cursor, threaded through the code in
  the same evaluation order as the source's calls.
* The text- and image-generation providers are modelled as oracles giving the
  outcome of each external call (throw / null / text, indexed by call number);
  the surrounding try/catch structure is translated explicitly.
* `JSON.parse` is a platform builtin; it is embedded as `jsonParse`, a
  standard JSON grammar parser (objects, arrays, strings with escapes,
  numbers kept as raw lexemes, booleans, null; duplicate keys keep the last
  binding, raw control characters in strings are rejected).  Claims never
  inspect numeric values, so number lexemes are not converted to floats.
-/

/-- `InteractionType` of `types.ts`: 'single' | 'multi' | 'truefalse' | 'open'
('open' is spelled `openq` because `open` is a Lean keyword). -/
inductive InteractionType where
  | single
  | multi
  | truefalse
  | openq
deriving DecidableEq, Repr

/-- The wire spelling of an interaction type (used for `interactionHint`). -/
def InteractionType.wire : InteractionType → String
  | .single => "single"
  | .multi => "multi"
  | .truefalse => "truefalse"
  | .openq => "open"

/-- `GenerationRequest` of `types.ts`. -/
structure GenerationRequest where
  topic : String
  audience : String
  objectives : Option (List String) := none
  interactionTypes : Option (List InteractionType) := none
  tone : Option String := none
  imageStyle : Option String := none
  constraints : Option (List String) := none
deriving DecidableEq, Repr

/-- `OutlineSection` of `types.ts` (`interactionHint?: string`). -/
structure OutlineSection where
  id : String
  title : String
  summary : String
  interactionHint : Option String := none
  assetsHint : Option String := none
deriving DecidableEq, Repr

/-- `CourseOutline` of `types.ts`. -/
structure CourseOutline where
  id : String
  title : String
  sections : List OutlineSection
deriving DecidableEq, Repr

/-- `Exclude<InteractionType, 'open'>`: the type of an emitted interaction. -/
inductive QuizType where
  | single
  | multi
  | truefalse
deriving DecidableEq, Repr

/-- `InteractionOption` of `types.ts`. -/
structure InteractionOption where
  id : String
  label : String
deriving DecidableEq, Repr

/-- The `scoring` field of `InteractionBlock`. -/
structure Scoring where
  points : Nat
  analyticsKey : String
deriving DecidableEq, Repr

/-- `InteractionBlock` of `types.ts`. -/
structure InteractionBlock where
  id : String
  type : QuizType
  question : String
  options : List InteractionOption
  answers : List String
  explanation : String
  scoring : Scoring
deriving DecidableEq, Repr

/-- The `image` field of `CoursewareSection`. -/
structure CoursewareImage where
  prompt : String
  url : String
  alt : String
deriving DecidableEq, Repr

/-- `CoursewareSection` of `types.ts`. -/
structure CoursewareSection where
  id : String
  title : String
  body : String
  image : CoursewareImage
  interaction : Option InteractionBlock := none
deriving DecidableEq, Repr

/-- The `metadata` field of `Courseware`. -/
structure CoursewareMetadata where
  topic : String
  audience : String
  objectives : List String
  generatedAt : String
deriving DecidableEq, Repr

/-- `Courseware` of `types.ts`. -/
structure Courseware where
  id : String
  title : String
  metadata : CoursewareMetadata
  sections : List CoursewareSection
deriving DecidableEq, Repr

/-- `CoursewareBuildRequest` of `types.ts`. -/
structure CoursewareBuildRequest where
  outline : CourseOutline
  request : GenerationRequest
deriving DecidableEq, Repr

/-- `CoursewareArtifact` of `types.ts`. -/
structure CoursewareArtifact where
  courseware : Courseware
  html : String
deriving DecidableEq, Repr

/-! ## JSON values and `JSON.parse` -/

/-- A JSON value.  Numbers keep their raw lexeme: no claim inspects them and
this avoids modelling binary floating point. -/
inductive Json where
  | null
  | bool (b : Bool)
  | num (raw : String)
  | str (s : String)
  | arr (elems : List Json)
  | obj (fields : List (String × Json))
deriving Repr

/-- JSON grammar whitespace (RFC 8259): space, tab, LF, CR. -/
def jsonWsChar (c : Char) : Bool :=
  c = ' ' || c = '\t' || c = '\n' || c = '\r'

/-- Drop leading JSON whitespace. -/
def skipJsonWs (cs : List Char) : List Char :=
  cs.dropWhile jsonWsChar

/-- Hexadecimal digit value. -/
def hexVal (c : Char) : Option Nat :=
  if '0' ≤ c ∧ c ≤ '9' then some (c.toNat - '0'.toNat)
  else if 'a' ≤ c ∧ c ≤ 'f' then some (c.toNat - 'a'.toNat + 10)
  else if 'A' ≤ c ∧ c ≤ 'F' then some (c.toNat - 'A'.toNat + 10)
  else none

/-- Parse the body of a JSON string (the opening quote already consumed),
returning the decoded string and the rest of the input.  Escapes are the
JSON ones; a `\uXXXX` escape becomes the scalar value when valid (surrogate
halves fall back to `Char.ofNat`'s default, a corner no claim exercises);
raw control characters are rejected as `JSON.parse` does. -/
def parseJStringAux : Nat → List Char → List Char → Option (String × List Char)
  | 0, _, _ => none
  | _ + 1, _, [] => none
  | fuel + 1, acc, c :: rest =>
    if c = '"' then
      some (String.mk acc.reverse, rest)
    else if c = '\\' then
      match rest with
      | [] => none
      | e :: rest2 =>
        if e = '"' then parseJStringAux fuel ('"' :: acc) rest2
        else if e = '\\' then parseJStringAux fuel ('\\' :: acc) rest2
        else if e = '/' then parseJStringAux fuel ('/' :: acc) rest2
        else if e = 'b' then parseJStringAux fuel ('\x08' :: acc) rest2
        else if e = 'f' then parseJStringAux fuel ('\x0c' :: acc) rest2
        else if e = 'n' then parseJStringAux fuel ('\n' :: acc) rest2
        else if e = 'r' then parseJStringAux fuel ('\r' :: acc) rest2
        else if e = 't' then parseJStringAux fuel ('\t' :: acc) rest2
        else if e = 'u' then
          match rest2 with
          | h1 :: h2 :: h3 :: h4 :: rest3 =>
            match hexVal h1, hexVal h2, hexVal h3, hexVal h4 with
            | some a, some b, some c2, some d =>
              parseJStringAux fuel
                (Char.ofNat (((a * 16 + b) * 16 + c2) * 16 + d) :: acc) rest3
            | _, _, _, _ => none
          | _ => none
        else none
    else if c.toNat < 32 then none
    else parseJStringAux fuel (c :: acc) rest

/-- ASCII digit test. -/
def isDig (c : Char) : Bool := '0' ≤ c && c ≤ '9'

/-- Optional exponent part of a JSON number: `([eE][+-]?[0-9]+)?`, failing
on a dangling `e` with no digits. -/
def parseJExp (cs : List Char) : Option (List Char × List Char) :=
  match cs with
  | [] => some ([], cs)
  | e :: r =>
    if e = 'e' ∨ e = 'E' then
      match r with
      | [] => none
      | s :: r2 =>
        if s = '+' ∨ s = '-' then
          let ds := r2.takeWhile isDig
          if ds = [] then none else some (e :: s :: ds, r2.drop ds.length)
        else
          let ds := r.takeWhile isDig
          if ds = [] then none else some (e :: ds, r.drop ds.length)
    else some ([], cs)

/-- Optional fraction then exponent: `(\.[0-9]+)?([eE][+-]?[0-9]+)?`, failing
on a dangling `.` with no digits. -/
def parseJFrac (cs : List Char) : Option (List Char × List Char) :=
  match cs with
  | '.' :: r =>
    let ds := r.takeWhile isDig
    if ds = [] then none
    else (parseJExp (r.drop ds.length)).map fun (ex, rest) => ('.' :: ds ++ ex, rest)
  | _ => parseJExp cs

/-- Parse a JSON number at the head of the input, returning its raw lexeme:
`-?(0|[1-9][0-9]*)(\.[0-9]+)?([eE][+-]?[0-9]+)?`. -/
def parseJNumber (cs : List Char) : Option (String × List Char) :=
  let (sign, rest0) :=
    match cs with
    | '-' :: r => ([('-' : Char)], r)
    | _ => ([], cs)
  match rest0 with
  | [] => none
  | c :: r =>
    if c = '0' then
      (parseJFrac r).map fun (tail, rest) =>
        (String.mk (sign ++ [c] ++ tail), rest)
    else if isDig c then
      let ds := r.takeWhile isDig
      (parseJFrac (r.drop ds.length)).map fun (tail, rest) =>
        (String.mk (sign ++ (c :: ds) ++ tail), rest)
    else none

mutual

/-- Parse one JSON value (leading whitespace allowed). -/
def parseJValue : Nat → List Char → Option (Json × List Char)
  | 0, _ => none
  | fuel + 1, cs =>
    match skipJsonWs cs with
    | [] => none
    | c :: rest =>
      if c = '\x7b' then
        match skipJsonWs rest with
        | '\x7d' :: r2 => some (.obj [], r2)
        | _ => parseJMembers fuel rest []
      else if c = '[' then
        match skipJsonWs rest with
        | ']' :: r2 => some (.arr [], r2)
        | _ => parseJElems fuel rest []
      else if c = '"' then
        (parseJStringAux (rest.length + 1) [] rest).map fun (s, r) => (.str s, r)
      else if c = 't' then
        match rest with
        | 'r' :: 'u' :: 'e' :: r => some (.bool true, r)
        | _ => none
      else if c = 'f' then
        match rest with
        | 'a' :: 'l' :: 's' :: 'e' :: r => some (.bool false, r)
        | _ => none
      else if c = 'n' then
        match rest with
        | 'u' :: 'l' :: 'l' :: r => some (.null, r)
        | _ => none
      else
        (parseJNumber (c :: rest)).map fun (raw, r) => (.num raw, r)

/-- Parse the members of an object after `{` (at least one member). -/
def parseJMembers : Nat → List Char → List (String × Json) →
    Option (Json × List Char)
  | 0, _, _ => none
  | fuel + 1, cs, acc =>
    match skipJsonWs cs with
    | '"' :: rest =>
      match parseJStringAux (rest.length + 1) [] rest with
      | none => none
      | some (key, rest2) =>
        match skipJsonWs rest2 with
        | ':' :: rest3 =>
          match parseJValue fuel rest3 with
          | none => none
          | some (v, rest4) =>
            match skipJsonWs rest4 with
            | ',' :: rest5 => parseJMembers fuel rest5 (acc ++ [(key, v)])
            | '\x7d' :: rest5 => some (.obj (acc ++ [(key, v)]), rest5)
            | _ => none
        | _ => none
    | _ => none

/-- Parse the elements of an array after `[` (at least one element). -/
def parseJElems : Nat → List Char → List Json → Option (Json × List Char)
  | 0, _, _ => none
  | fuel + 1, cs, acc =>
    match parseJValue fuel cs with
    | none => none
    | some (v, rest) =>
      match skipJsonWs rest with
      | ',' :: rest2 => parseJElems fuel rest2 (acc ++ [v])
      | ']' :: rest2 => some (.arr (acc ++ [v]), rest2)
      | _ => none

end

/-- `JSON.parse`: parse a whole string as one JSON value (trailing whitespace
allowed), `none` on any syntax error — the embedding of the builtin used at
`gemini.ts:221`. -/
def jsonParse (s : String) : Option Json :=
  match parseJValue (2 * s.length + 2) s.data with
  | some (v, rest) => if skipJsonWs rest = [] then some v else none
  | none => none

/-- Property access on a parsed JSON value (`parsed.sections` etc.).
`JSON.parse` keeps the last of duplicate keys, so the lookup takes the last
binding. -/
def jsonField (j : Json) (key : String) : Option Json :=
  match j with
  | .obj fields => lookupLast fields
  | _ => none
where
  lookupLast : List (String × Json) → Option Json
    | [] => none
    | (k, v) :: rest =>
      match lookupLast rest with
      | some r => some r
      | none => if k = key then some v else none

/-! ## The JSON extractor (`extractJson`, gemini.ts:204–227) -/

/-- ASCII lower-casing, for the `i` regex flag. -/
def lowerA (c : Char) : Char :=
  if 'A' ≤ c ∧ c ≤ 'Z' then Char.ofNat (c.toNat + 32) else c

/-- Case-insensitive (ASCII) literal match at the head of the input. -/
def ciStarts : List Char → List Char → Bool
  | [], _ => true
  | _ :: _, [] => false
  | p :: ps, c :: cs => lowerA p = lowerA c && ciStarts ps cs

/-- JavaScript `\s`: the regex whitespace class. -/
def jsWsChar (c : Char) : Bool :=
  c = ' ' || (9 ≤ c.toNat && c.toNat ≤ 13) || c.toNat = 0xa0 ||
  c.toNat = 0x1680 || (0x2000 ≤ c.toNat && c.toNat ≤ 0x200a) ||
  c.toNat = 0x2028 || c.toNat = 0x2029 || c.toNat = 0x202f ||
  c.toNat = 0x205f || c.toNat = 0x3000 || c.toNat = 0xfeff

/-- The backtick character. -/
def tick : Char := '\x60'

/-- The literal `\x60\x60\x60json` opening a fenced block. -/
def fenceTag : List Char := [tick, tick, tick, 'j', 's', 'o', 'n']

/-- Index of the first occurrence of `\x60\x60\x60` in the input. -/
def findTripleTick : List Char → Option Nat
  | [] => none
  | c :: rest =>
    match c :: rest with
    | c1 :: c2 :: c3 :: _ =>
      if c1 = tick ∧ c2 = tick ∧ c3 = tick then some 0
      else (findTripleTick rest).map (· + 1)
    | _ => (findTripleTick rest).map (· + 1)

/-- The capture group of `/\x60\x60\x60json\s*([\s\S]*?)\x60\x60\x60/i` when it
matches at the head of the input: after the tag, `\s*` greedily takes the
maximal whitespace run (a shorter run cannot help, since a closing fence
starts with a non-whitespace backtick), and the lazy group runs to the first
closing fence; no closing fence means no match at this position. -/
def fenceAt (cs : List Char) : Option (List Char) :=
  let afterTag := cs.drop fenceTag.length
  let win0 := afterTag.dropWhile jsWsChar
  (findTripleTick win0).map fun k => win0.take k

/-- Leftmost match of the fence regex over the whole input
(`input.match(/\x60\x60\x60json\s*([\s\S]*?)\x60\x60\x60/i)`), returning the
capture group. -/
def fenceScan : List Char → Option (List Char)
  | [] => none
  | c :: rest =>
    match (if ciStarts fenceTag (c :: rest) then fenceAt (c :: rest) else none) with
    | some w => some w
    | none => fenceScan rest

/-- Index of the first occurrence of a character (`String.indexOf`). -/
def idxOf (c : Char) : List Char → Option Nat
  | [] => none
  | x :: xs => if x = c then some 0 else (idxOf c xs).map (· + 1)

/-- Index of the last occurrence of a character (`String.lastIndexOf`). -/
def lastIdxOf (c : Char) (cs : List Char) : Option Nat :=
  (idxOf c cs.reverse).map fun k => cs.length - 1 - k

/-- `extractJson` (gemini.ts:204–227): empty input fails; a fenced block
labeled json narrows the search window; the slice from the first `{` to the
last `}` (inclusive) is parsed; any missing brace or parse error gives
`none` — a value, not a thrown fault (the catch at gemini.ts:220–226). -/
def extractJson (input : String) : Option Json :=
  if input = "" then none
  else
    let cs := input.data
    let candidate := match fenceScan cs with | some w => w | none => cs
    match idxOf '\x7b' candidate, lastIdxOf '\x7d' candidate with
    | some firstBraceIndex, some lastBraceIndex =>
      let jsonString :=
        (candidate.drop firstBraceIndex).take (lastBraceIndex + 1 - firstBraceIndex)
      jsonParse (String.mk jsonString)
    | _, _ => none

/-- The search window of the extractor, as the spec describes it: the fenced
block's contents when one is present, the whole text otherwise. -/
def fenceWindow (input : String) : List Char :=
  match fenceScan input.data with
  | some w => w
  | none => input.data

/-- The brace-delimited slice of a window: from the first `{` to the last `}`
inclusive, `none` when either brace is absent. -/
def braceSlice (w : List Char) : Option String :=
  match idxOf '\x7b' w, lastIdxOf '\x7d' w with
  | some i, some j => some (String.mk ((w.drop i).take (j + 1 - i)))
  | _, _ => none

/-! ## HTML escaping (courseware-html.ts:3–9) -/

/-- Replace every occurrence of one character by a string — the embedding of
one global single-character regex replacement. -/
def replaceCh (c : Char) (r : List Char) : List Char → List Char
  | [] => []
  | x :: xs => (if x = c then r else [x]) ++ replaceCh c r xs

/-- `escapeHtml`: the source's five successive global replacements, in source
order (`&` first, so the later replacements' ampersands survive). -/
def escapeHtml (value : String) : String :=
  let s1 := replaceCh '&' "&amp;".data value.data
  let s2 := replaceCh '<' "&lt;".data s1
  let s3 := replaceCh '>' "&gt;".data s2
  let s4 := replaceCh '"' "&quot;".data s3
  let s5 := replaceCh '\x27' "&#39;".data s4
  String.mk s5

/-! ## The defensive body cleanup (courseware-html.ts:11–29)

`cleanSectionBody` applies five global case-insensitive regex replacements.
Each pattern is embedded as a matcher returning the length matched at the
head of the input; `replAll` gives `String.replace(pattern, '')` with the
`g` flag (leftmost, non-overlapping, resume after the removed span).
`escapeRegExp` makes the interpolated title a literal, so the matchers take
the title as a literal matched case-insensitively. -/

/-- Match `<p[^>]*>` at the head ( `[^>]*` cannot cross a `>`, so the match
is determined: up to and including the first `>`). -/
def matchOpenP : List Char → Option Nat
  | '<' :: c :: rest =>
    if c = 'p' ∨ c = 'P' then
      let k := (rest.takeWhile (· ≠ '>')).length
      match rest.drop k with
      | '>' :: _ => some (2 + k + 1)
      | _ => none
    else none
  | _ => none

/-- Match `<h[1-6][^>]*>` at the head. -/
def matchOpenH : List Char → Option Nat
  | '<' :: c :: d :: rest =>
    if (c = 'h' ∨ c = 'H') ∧ ('1' ≤ d ∧ d ≤ '6') then
      let k := (rest.takeWhile (· ≠ '>')).length
      match rest.drop k with
      | '>' :: _ => some (3 + k + 1)
      | _ => none
    else none
  | _ => none

/-- Match `</p>` at the head (case-insensitive). -/
def matchCloseP : List Char → Option Nat
  | '<' :: '/' :: c :: '>' :: _ => if c = 'p' ∨ c = 'P' then some 4 else none
  | _ => none

/-- Match `</h[1-6]>` at the head (case-insensitive). -/
def matchCloseH : List Char → Option Nat
  | '<' :: '/' :: c :: d :: '>' :: _ =>
    if (c = 'h' ∨ c = 'H') ∧ ('1' ≤ d ∧ d ≤ '6') then some 5 else none
  | _ => none

/-- One backtracking position of `\s*LIT\s*CLOSER`: `i` whitespace characters,
then the case-insensitive literal, then maximal whitespace, then the closer
(the closer starts with `<`, not whitespace, so its `\s*` never backtracks). -/
def wsLitTry (lit : List Char) (closer : List Char → Option Nat)
    (cs : List Char) (i : Nat) : Option Nat :=
  if ciStarts lit (cs.drop i) then
    let after := cs.drop (i + lit.length)
    let w2 := (after.takeWhile jsWsChar).length
    match closer (after.drop w2) with
    | some m => some (i + lit.length + w2 + m)
    | none => none
  else none

/-- Greedy `\s*` with backtracking: try `i` whitespace characters from the
maximal run downwards, first success wins. -/
def wsLitSearch (lit : List Char) (closer : List Char → Option Nat)
    (cs : List Char) : Nat → Option Nat
  | 0 => wsLitTry lit closer cs 0
  | i + 1 =>
    match wsLitTry lit closer cs (i + 1) with
    | some n => some n
    | none => wsLitSearch lit closer cs i

/-- Match `\s*LIT\s*CLOSER` at the head, regex-greedy. -/
def wsLitClose (lit : List Char) (closer : List Char → Option Nat)
    (cs : List Char) : Option Nat :=
  wsLitSearch lit closer cs ((cs.takeWhile jsWsChar).length)

/-- Match `<p[^>]*>\s*TITLE\s*</p>` at the head (courseware-html.ts:18). -/
def matchTitlePara (title : List Char) (cs : List Char) : Option Nat :=
  match matchOpenP cs with
  | none => none
  | some n => (wsLitClose title matchCloseP (cs.drop n)).map (· + n)

/-- Match `<h[1-6][^>]*>\s*TITLE\s*</h[1-6]>` at the head
(courseware-html.ts:20). -/
def matchTitleHeading (title : List Char) (cs : List Char) : Option Nat :=
  match matchOpenH cs with
  | none => none
  | some n => (wsLitClose title matchCloseH (cs.drop n)).map (· + n)

/-- First position (and match length) where a closer matches: the target of a
lazy `[\s\S]*?` before it. -/
def findClose (closer : List Char → Option Nat) : List Char → Option (Nat × Nat)
  | [] => none
  | c :: rest =>
    match closer (c :: rest) with
    | some m => some (0, m)
    | none => (findClose closer rest).map fun (k, m) => (k + 1, m)

/-- The literal `教学对象`. -/
def audLit : List Char := "教学对象".data

/-- Match `OPEN\s*教学对象[:：][\s\S]*?CLOSE` at the head
(courseware-html.ts:24–25). -/
def matchAudSpan (openM closeM : List Char → Option Nat)
    (cs : List Char) : Option Nat :=
  match openM cs with
  | none => none
  | some n =>
    let rest := cs.drop n
    let w := (rest.takeWhile jsWsChar).length
    let rest2 := rest.drop w
    if ciStarts audLit rest2 then
      match rest2.drop audLit.length with
      | c :: rest4 =>
        if c = ':' ∨ c = '：' then
          (findClose closeM rest4).map fun (k, m) =>
            n + w + audLit.length + 1 + k + m
        else none
      | [] => none
    else none

/-- Match `<p[^>]*>\s*</p>` at the head (courseware-html.ts:26). -/
def matchEmptyP (cs : List Char) : Option Nat :=
  match matchOpenP cs with
  | none => none
  | some n =>
    let rest := cs.drop n
    let w := (rest.takeWhile jsWsChar).length
    (matchCloseP (rest.drop w)).map fun m => n + w + m

/-- `String.replace(re, '')` with the `g` flag: scan left to right, remove
each leftmost match, resume after the removed span. -/
def replAllAux (m : List Char → Option Nat) : Nat → List Char → List Char
  | 0, cs => cs
  | _ + 1, [] => []
  | fuel + 1, c :: cs =>
    match m (c :: cs) with
    | some n =>
      if n = 0 then c :: replAllAux m fuel cs
      else replAllAux m fuel (List.drop n (c :: cs))
    | none => c :: replAllAux m fuel cs

/-- Remove every match of a pattern (all patterns here match at least one
character, so length fuel suffices). -/
def replAll (m : List Char → Option Nat) (cs : List Char) : List Char :=
  replAllAux m cs.length cs

/-- `cleanSectionBody` (courseware-html.ts:13–29): drops exact-title
paragraphs and headings, `教学对象` paragraphs and headings, and empty
paragraphs, in source order. -/
def cleanSectionBody (body : String) (title : String) : String :=
  if body = "" then body
  else
    let cs := body.data
    let c1 :=
      if title = "" then cs
      else replAll (matchTitleHeading title.data) (replAll (matchTitlePara title.data) cs)
    let c2 := replAll (matchAudSpan matchOpenP matchCloseP) c1
    let c3 := replAll (matchAudSpan matchOpenH matchCloseH) c2
    let c4 := replAll matchEmptyP c3
    String.mk c4
def optT0 : String :=
  "\n        <li class=\"interaction__option\">\n          <label class=\"option\">\n            <input\n              type=\""

def optT1 : String :=
  "\"\n              name=\""

def optT2 : String :=
  "\"\n              value=\""

def optT3 : String :=
  "\"\n              data-correct=\""

def optT4 : String :=
  "\"\n            />\n            <span>"

def optT5 : String :=
  "</span>\n          </label>\n        </li>\n      "

def intT0 : String :=
  "\n    <div class=\"interaction\" data-type=\""

def intT1 : String :=
  "\">\n      <div class=\"interaction__header\">\n        <h3>"

def intT2 : String :=
  "</h3>\n        <span class=\"interaction__points\">+"

def intT3 : String :=
  " 分</span>\n      </div>\n      <ul class=\"interaction__options\">\n        "

def intT4 : String :=
  "\n      </ul>\n      <div class=\"interaction__actions\">\n        <button type=\"button\" class=\"interaction__submit\">提交答案</button>\n        <button type=\"button\" class=\"interaction__reset\">重置</button>\n      </div>\n      <div class=\"interaction__feedback\"></div>\n      <details class=\"interaction__analysis\">\n        <summary>答案与解析</summary>\n        <p>"

def intT5 : String :=
  "</p>\n      </details>\n    </div>\n  "

def wrapT0 : String :=
  "\n          <div class=\"slide__interaction\">\n            "

def wrapT1 : String :=
  "\n          </div>"

def secT0 : String :=
  "\n    <article class=\"slide\" data-index=\""

def secT1 : String :=
  "\">\n      <div class=\"slide__inner\">\n        <div class=\"slide__media\">\n          <img src=\""

def secT2 : String :=
  "\" alt=\""

def secT3 : String :=
  "\" />\n        </div>\n        <div class=\"slide__content\">\n          <header class=\"slide__header\">\n            <span class=\"slide__badge\">场景 "

def secT4 : String :=
  "/"

def secT5 : String :=
  "</span>\n          </header>\n          <div class=\"slide__body\">\n            "

def secT6 : String :=
  "\n          </div>\n        </div>\n        "

def secT7 : String :=
  "\n      </div>\n    </article>\n  "

def docT0 : String :=
  "<!DOCTYPE html>\n<html lang=\"zh-CN\">\n  <head>\n    <meta charset=\"UTF-8\" />\n    <meta name=\"viewport\" content=\"width=device-width, initial-scale=1.0\" />\n    <title>"

def docT1 : String :=
  "</title>\n    <style>\n      :root \x7b\n        font-family: \x27Songti SC\x27, \x27STSong\x27, \x27PingFang SC\x27, \x27Microsoft YaHei\x27, -apple-system, BlinkMacSystemFont, \x27Segoe UI\x27, sans-serif;\n        color: #4b3b2a;\n        background: #f3ebdd;\n      \x7d\n\n      body \x7b\n        margin: 0;\n        background:\n          linear-gradient(135deg, rgba(250, 245, 235, 0.94), rgba(242, 226, 205, 0.92)),\n          url(\x27data:image/svg+xml,%3Csvg width=\"200\" height=\"200\" xmlns=\"http://www.w3.org/2000/svg\"%3E%3Cpath d=\"M0 100h200M100 0v200\" stroke=\"%23e7d9c5\" stroke-width=\".6\" fill=\"none\"/%3E%3C/svg%3E\x27);\n        background-size: cover, 200px 200px;\n      \x7d\n\n      .app \x7b\n        max-width: 960px;\n        margin: 40px auto 60px;\n        padding: 0 20px 28px;\n        display: flex;\n        flex-direction: column;\n        gap: 28px;\n      \x7d\n\n      .slides \x7b\n        position: relative;\n        min-height: 520px;\n      \x7d\n\n      .slide \x7b\n        display: none;\n        animation: fadeIn 400ms ease;\n      \x7d\n\n      .slide--active \x7b\n        display: block;\n      \x7d\n\n      .slide__inner \x7b\n        display: grid;\n        grid-template-columns: minmax(0, 400px) minmax(0, 1fr);\n        gap: 28px;\n        padding: 32px 34px;\n        border-radius: 32px;\n        background: linear-gradient(140deg, rgba(255, 255, 255, 0.96) 0%, rgba(251, 240, 224, 0.95) 52%, rgba(246, 226, 204, 0.94) 100%);\n        box-shadow:\n          0 24px 40px rgba(120, 88, 55, 0.16),\n          inset 0 1px 0 rgba(255, 255, 255, 0.75);\n        border: 1px solid rgba(222, 204, 176, 0.75);\n        position: relative;\n        overflow: hidden;\n        backdrop-filter: blur(3px);\n      \x7d\n\n      .slide__inner::before \x7b\n        content: \x27\x27;\n        position: absolute;\n        inset: 18px 26px auto auto;\n        width: 200px;\n        height: 200px;\n        background: radial-gradient(ellipse at top right, rgba(231, 189, 130, 0.2), transparent 70%);\n        pointer-events: none;\n      \x7d\n\n      .slide__inner::after \x7b\n        content: \x27\x27;\n        position: absolute;\n        inset: auto auto 18px 24px;\n        width: 180px;\n        height: 180px;\n        background: radial-gradient(ellipse at bottom left, rgba(214, 170, 119, 0.18), transparent 75%);\n        pointer-events: none;\n      \x7d\n\n      .slide__media \x7b\n        display: flex;\n        flex-direction: column;\n        background: linear-gradient(150deg, rgba(246, 234, 217, 0.86), rgba(234, 215, 189, 0.72));\n        padding: 18px 18px;\n        border-radius: 24px;\n        border: 1px solid rgba(206, 176, 137, 0.45);\n        box-shadow:\n          inset 0 1px 0 rgba(255, 255, 255, 0.8),\n          0 18px 38px rgba(182, 143, 102, 0.18);\n        position: relative;\n        backdrop-filter: blur(2px);\n      \x7d\n\n      .slide__media img \x7b\n        width: 100%;\n        height: clamp(260px, 28vw, 360px);\n        object-fit: contain;\n        border-radius: 24px;\n        border: 1px solid rgba(212, 184, 144, 0.78);\n        box-shadow:\n          inset 0 0 0 1px rgba(255, 255, 255, 0.8),\n          0 18px 32px rgba(118, 94, 70, 0.2);\n        background: #fdf9f4;\n      \x7d\n\n      .slide__content \x7b\n        display: flex;\n        flex-direction: column;\n        gap: 20px;\n        padding: 22px 26px 28px;\n        border-radius: 24px;\n        background: linear-gradient(135deg, rgba(255, 255, 255, 0.94) 0%, rgba(250, 238, 222, 0.86) 100%);\n        border: 1px solid rgba(214, 188, 152, 0.6);\n        box-shadow:\n          inset 0 1px 0 rgba(255, 255, 255, 0.85),\n          0 14px 28px rgba(180, 141, 100, 0.12);\n        position: relative;\n      \x7d\n\n      .slide__content::before \x7b\n        content: \x27\x27;\n        position: absolute;\n        inset: 0;\n        border-radius: 28px;\n        background: linear-gradient(135deg, rgba(211, 168, 117, 0.18), transparent 75%);\n        opacity: 0.35;\n        pointer-events: none;\n      \x7d\n\n      .slide__content > * \x7b\n        position: relative;\n        z-index: 1;\n      \x7d\n\n      .slide__interaction \x7b\n        grid-column: 1 / -1;\n        margin-top: 16px;\n      \x7d\n\n      .slide__interaction .interaction \x7b\n        margin-top: 0;\n      \x7d\n\n      .slide__header \x7b\n        display: flex;\n        flex-direction: column;\n        gap: 16px;\n        align-items: center;\n      \x7d\n\n      .slide__badge \x7b\n        display: inline-flex;\n        align-items: center;\n        justify-content: center;\n        font-size: 12px;\n        letter-spacing: 0.18em;\n        color: #7b532d;\n        padding: 6px 18px;\n        border-radius: 999px;\n        background: rgba(223, 194, 150, 0.35);\n        text-transform: uppercase;\n        border: 1px solid rgba(202, 168, 120, 0.4);\n        box-shadow: inset 0 1px 0 rgba(255, 255, 255, 0.75);\n      \x7d\n\n      .slide__body \x7b\n        line-height: 1.7;\n        color: #5a452f;\n        font-size: 15px;\n        background: rgba(255, 255, 255, 0.78);\n        padding: 18px 22px;\n        border-radius: 20px;\n        border: 1px solid rgba(214, 188, 152, 0.55);\n        box-shadow:\n          inset 0 1px 0 rgba(255, 255, 255, 0.82),\n          0 8px 16px rgba(188, 150, 106, 0.1);\n      \x7d\n\n      .slide__body p \x7b\n        margin: 0 0 14px;\n        text-indent: 2em;\n      \x7d\n\n      .slide__body p:first-of-type::first-letter \x7b\n        font-size: 1.8em;\n        font-weight: 600;\n        color: #b88042;\n        margin-right: 4px;\n      \x7d\n\n      .slide__body strong \x7b\n        color: #7d502d;\n        font-weight: 600;\n      \x7d\n\n      .interaction \x7b\n        margin: 0;\n        padding: 18px 22px 24px;\n        border-radius: 22px;\n        border: 1px solid rgba(204, 174, 134, 0.55);\n        background: linear-gradient(135deg, rgba(255, 249, 239, 0.94) 0%, rgba(246, 229, 206, 0.9) 100%);\n        display: flex;\n        flex-direction: column;\n        gap: 16px;\n        box-shadow:\n          inset 0 1px 0 rgba(255, 255, 255, 0.82),\n          0 12px 22px rgba(190, 150, 105, 0.15);\n      \x7d\n\n      .interaction__header \x7b\n        display: flex;\n        justify-content: space-between;\n        align-items: center;\n        gap: 12px;\n      \x7d\n\n      .interaction__header h3 \x7b\n        margin: 0;\n        font-size: 18px;\n        color: #6a4324;\n        letter-spacing: 0.04em;\n      \x7d\n\n      .interaction__points \x7b\n        font-size: 13px;\n        color: #9a6c3b;\n        background: rgba(223, 194, 150, 0.32);\n        padding: 4px 12px;\n        border-radius: 999px;\n        border: 1px solid rgba(204, 168, 122, 0.35);\n        box-shadow: inset 0 1px 0 rgba(255, 255, 255, 0.75);\n      \x7d\n\n      .interaction__options \x7b\n        margin: 0;\n        padding: 0;\n        list-style: none;\n        display: flex;\n        flex-direction: column;\n        gap: 12px;\n      \x7d\n\n      .option \x7b\n        display: flex;\n        align-items: center;\n        gap: 12px;\n        padding: 12px 18px;\n        border-radius: 18px;\n        background: rgba(255, 255, 255, 0.88);\n        border: 1px solid rgba(214, 182, 138, 0.55);\n        transition: border-color 160ms ease, transform 160ms ease, box-shadow 160ms ease;\n        box-shadow: inset 0 1px 0 rgba(255, 255, 255, 0.8);\n      \x7d\n\n      .option:hover \x7b\n        border-color: rgba(196, 154, 104, 0.75);\n        transform: translateY(-1px);\n        box-shadow: 0 12px 24px rgba(188, 145, 95, 0.16);\n      \x7d\n\n      .option input \x7b\n        width: 18px;\n        height: 18px;\n        accent-color: #bf8544;\n      \x7d\n\n      .option--correct \x7b\n        border-color: rgba(166, 186, 92, 0.75);\n        background: rgba(243, 247, 225, 0.9);\n      \x7d\n\n      .option--wrong \x7b\n        border-color: rgba(219, 132, 110, 0.7);\n        background: rgba(251, 232, 224, 0.9);\n      \x7d\n\n      .interaction__actions \x7b\n        display: flex;\n        gap: 12px;\n      \x7d\n\n      .interaction__submit,\n      .interaction__reset \x7b\n        border: none;\n        border-radius: 10px;\n        padding: 8px 14px;\n        font-size: 13px;\n        font-weight: 600;\n        cursor: pointer;\n        transition: transform 150ms ease, box-shadow 150ms ease;\n      \x7d\n\n      .interaction__submit \x7b\n        background: linear-gradient(135deg, #d39f58, #b97834);\n        color: #fffdfa;\n        box-shadow: 0 16px 28px rgba(195, 138, 72, 0.22);\n      \x7d\n\n      .interaction__reset \x7b\n        background: rgba(228, 210, 185, 0.72);\n        color: #694526;\n        border: 1px solid rgba(205, 168, 120, 0.55);\n      \x7d\n\n      .interaction__submit:hover,\n      .interaction__reset:hover \x7b\n        transform: translateY(-1px);\n      \x7d\n\n      .interaction__feedback \x7b\n        font-size: 14px;\n        color: #5c4026;\n        min-height: 20px;\n      \x7d\n\n      .interaction--correct .interaction__feedback \x7b\n        color: #6f892f;\n      \x7d\n\n      .interaction--incorrect .interaction__feedback \x7b\n        color: #ba4f2f;\n      \x7d\n\n      .interaction__analysis \x7b\n        font-size: 14px;\n        color: #705030;\n      \x7d\n\n      .app__topbar \x7b\n        display: flex;\n        align-items: center;\n        justify-content: space-between;\n        gap: 16px;\n        padding: 14px 22px;\n        border-radius: 18px;\n        background: rgba(255, 250, 241, 0.94);\n        border: 1px solid rgba(214, 186, 146, 0.5);\n        box-shadow:\n          inset 0 1px 0 rgba(255, 255, 255, 0.7),\n          0 12px 20px rgba(177, 140, 98, 0.14);\n      \x7d\n\n      .topbar__nav \x7b\n        display: flex;\n        align-items: center;\n        gap: 12px;\n        flex-wrap: wrap;\n      \x7d\n\n      .topbar__score \x7b\n        display: flex;\n        align-items: center;\n        gap: 6px;\n        font-size: 13px;\n        color: #6b4d30;\n        white-space: nowrap;\n      \x7d\n\n      .score-value \x7b\n        font-weight: 600;\n        color: #a1622c;\n      \x7d\n\n      .nav-button \x7b\n        border: none;\n        border-radius: 10px;\n        padding: 8px 16px;\n        font-size: 13px;\n        font-weight: 600;\n        background: linear-gradient(135deg, rgba(233, 206, 168, 0.96), rgba(210, 174, 132, 0.85));\n        color: #5b3f25;\n        cursor: pointer;\n        transition: transform 150ms ease, box-shadow 150ms ease;\n        border: 1px solid rgba(198, 162, 118, 0.6);\n      \x7d\n\n      .nav-button:hover:not(:disabled) \x7b\n        transform: translateY(-1px);\n        box-shadow: 0 12px 20px rgba(177, 140, 98, 0.18);\n      \x7d\n\n      .nav-button:disabled \x7b\n        opacity: 0.55;\n        cursor: not-allowed;\n        box-shadow: none;\n      \x7d\n\n      .progress \x7b\n        font-size: 13px;\n        color: #6b4d30;\n        letter-spacing: 0.08em;\n      \x7d\n\n      @keyframes fadeIn \x7b\n        from \x7b\n          opacity: 0;\n          transform: translateY(10px);\n        \x7d\n        to \x7b\n          opacity: 1;\n          transform: translateY(0);\n        \x7d\n      \x7d\n\n      @media (max-width: 960px) \x7b\n        .slide__inner \x7b\n          grid-template-columns: 1fr;\n        \x7d\n\n        .slide__media img \x7b\n          height: auto;\n        \x7d\n      \x7d\n\n      @media (max-width: 720px) \x7b\n        .app \x7b\n          padding: 24px 16px 36px;\n        \x7d\n\n        .app__topbar \x7b\n          flex-direction: column;\n          align-items: stretch;\n          gap: 10px;\n        \x7d\n\n        .topbar__nav \x7b\n          justify-content: space-between;\n        \x7d\n\n        .topbar__score \x7b\n          justify-content: flex-end;\n        \x7d\n      \x7d\n    </style>\n  </head>\n  <body>\n    <div class=\"app\" data-total-slides=\""

def docT2 : String :=
  "\">\n      <header class=\"app__topbar\">\n        <div class=\"topbar__nav\">\n          <button class=\"nav-button\" id=\"prevBtn\">上一场景</button>\n          <div class=\"progress\" id=\"progress\">场景 1 / "

def docT3 : String :=
  "</div>\n          <button class=\"nav-button\" id=\"nextBtn\">下一场景</button>\n        </div>\n        <div class=\"topbar__score\">\n          <span>互动完成度：</span>\n          <span class=\"score-value\" id=\"scoreValue\">暂无互动题</span>\n        </div>\n      </header>\n      <main class=\"slides\">\n        "

def docT4 : String :=
  "\n      </main>\n    </div>\n    <script>\n      (function () \x7b\n        const slides = Array.from(document.querySelectorAll(\x27.slide\x27));\n        const prevBtn = document.getElementById(\x27prevBtn\x27);\n        const nextBtn = document.getElementById(\x27nextBtn\x27);\n        const progressEl = document.getElementById(\x27progress\x27);\n        const scoreValue = document.getElementById(\x27scoreValue\x27);\n        let currentIndex = 0;\n        let correctCount = 0;\n\n        const interactions = Array.from(document.querySelectorAll(\x27.interaction\x27));\n        const totalQuizzes = interactions.length;\n\n        const updateScoreboard = () => \x7b\n          if (!scoreValue) return;\n          if (totalQuizzes === 0) \x7b\n            scoreValue.textContent = \x27暂无互动题\x27;\n            return;\n          \x7d\n          scoreValue.textContent = \x60$\x7bcorrectCount\x7d / $\x7btotalQuizzes\x7d\x60;\n        \x7d;\n\n        const updateSlides = () => \x7b\n          slides.forEach((slide, index) => \x7b\n            slide.classList.toggle(\x27slide--active\x27, index === currentIndex);\n          \x7d);\n          if (prevBtn) prevBtn.disabled = currentIndex === 0;\n          if (nextBtn) nextBtn.disabled = currentIndex === slides.length - 1;\n          if (progressEl) progressEl.textContent = \x60场景 $\x7bcurrentIndex + 1\x7d / $\x7bslides.length\x7d\x60;\n        \x7d;\n\n        prevBtn?.addEventListener(\x27click\x27, () => \x7b\n          if (currentIndex > 0) \x7b\n            currentIndex -= 1;\n            updateSlides();\n          \x7d\n        \x7d);\n\n        nextBtn?.addEventListener(\x27click\x27, () => \x7b\n          if (currentIndex < slides.length - 1) \x7b\n            currentIndex += 1;\n            updateSlides();\n          \x7d\n        \x7d);\n\n        interactions.forEach((interaction) => \x7b\n          const submitBtn = interaction.querySelector(\x27.interaction__submit\x27);\n          const resetBtn = interaction.querySelector(\x27.interaction__reset\x27);\n          const feedback = interaction.querySelector(\x27.interaction__feedback\x27);\n          const inputs = Array.from(interaction.querySelectorAll(\x27input\x27));\n\n          const getSelectedValues = () => inputs.filter((input) => input.checked).map((input) => input.value);\n          const getCorrectValues = () => inputs.filter((input) => input.dataset.correct === \x27true\x27).map((input) => input.value);\n\n          const markOptions = () => \x7b\n            inputs.forEach((input) => \x7b\n              const wrapper = input.parentElement;\n              if (!wrapper) return;\n              wrapper.classList.remove(\x27option--correct\x27, \x27option--wrong\x27);\n              if (input.dataset.correct === \x27true\x27) \x7b\n                wrapper.classList.add(\x27option--correct\x27);\n              \x7d else if (input.checked) \x7b\n                wrapper.classList.add(\x27option--wrong\x27);\n              \x7d\n            \x7d);\n          \x7d;\n\n          const clearMarks = () => \x7b\n            inputs.forEach((input) => \x7b\n              const wrapper = input.parentElement;\n              if (!wrapper) return;\n              wrapper.classList.remove(\x27option--correct\x27, \x27option--wrong\x27);\n            \x7d);\n          \x7d;\n\n          submitBtn?.addEventListener(\x27click\x27, () => \x7b\n            const wasCorrect = interaction.classList.contains(\x27interaction--correct\x27);\n            const selected = getSelectedValues();\n            const correct = getCorrectValues();\n            const isCorrect = selected.length === correct.length && selected.every((value) => correct.includes(value));\n\n            interaction.classList.remove(\x27interaction--correct\x27, \x27interaction--incorrect\x27);\n            clearMarks();\n\n            if (isCorrect) \x7b\n              interaction.classList.add(\x27interaction--correct\x27);\n              if (feedback) feedback.textContent = \x27回答正确！\x27;\n              markOptions();\n            \x7d else \x7b\n              interaction.classList.add(\x27interaction--incorrect\x27);\n              if (feedback) feedback.textContent = \x27再思考一下，正确答案已高亮显示。\x27;\n              markOptions();\n            \x7d\n\n            if (!wasCorrect && isCorrect) \x7b\n              correctCount += 1;\n              updateScoreboard();\n            \x7d else if (wasCorrect && !isCorrect) \x7b\n              correctCount = Math.max(0, correctCount - 1);\n              updateScoreboard();\n            \x7d\n          \x7d);\n\n          resetBtn?.addEventListener(\x27click\x27, () => \x7b\n            const wasCorrect = interaction.classList.contains(\x27interaction--correct\x27);\n            interaction.classList.remove(\x27interaction--correct\x27, \x27interaction--incorrect\x27);\n            if (feedback) feedback.textContent = \x27\x27;\n            inputs.forEach((input) => \x7b\n              input.checked = false;\n            \x7d);\n            clearMarks();\n            if (wasCorrect) \x7b\n              correctCount = Math.max(0, correctCount - 1);\n              updateScoreboard();\n            \x7d\n          \x7d);\n        \x7d);\n\n        updateScoreboard();\n        updateSlides();\n      \x7d)();\n    </script>\n  </body>\n</html>"


/-! ## HTML renderer (courseware-html.ts:31–110 and the document template)

The template literals are split at their `$`-holes into the constant pieces
`optT*`, `intT*`, `wrapT*`, `secT*`, `docT*` above, reproduced byte-for-byte
from the source (JS template escapes undone). -/

/-- The wire spelling of an emitted interaction type. -/
def QuizType.wire : QuizType → String
  | .single => "single"
  | .multi => "multi"
  | .truefalse => "truefalse"

/-- `renderInteraction` (courseware-html.ts:31–74). -/
def renderInteraction (interaction : InteractionBlock) (sectionId : String) : String :=
  let inputType := if interaction.type = QuizType.multi then "checkbox" else "radio"
  let nameAttr := "q-" ++ sectionId
  let options := String.intercalate "\n" (interaction.options.map fun option =>
    let isCorrect := interaction.answers.contains option.id
    optT0 ++ inputType ++ optT1 ++ nameAttr ++ optT2 ++ escapeHtml option.id ++
      optT3 ++ (if isCorrect then "true" else "false") ++ optT4 ++
      escapeHtml option.label ++ optT5)
  intT0 ++ interaction.type.wire ++ intT1 ++ escapeHtml interaction.question ++
    intT2 ++ Nat.repr interaction.scoring.points ++ intT3 ++ options ++ intT4 ++
    escapeHtml interaction.explanation ++ intT5

/-- `renderSection` (courseware-html.ts:76–103). -/
def renderSection (sec : CoursewareSection) (index total : Nat) : String :=
  let bodyHtml := cleanSectionBody sec.body sec.title
  let interactionHtml :=
    match sec.interaction with
    | some it => wrapT0 ++ renderInteraction it sec.id ++ wrapT1
    | none => ""
  secT0 ++ Nat.repr index ++ secT1 ++ sec.image.url ++ secT2 ++
    escapeHtml sec.image.alt ++ secT3 ++ Nat.repr (index + 1) ++ secT4 ++
    Nat.repr total ++ secT5 ++ bodyHtml ++ secT6 ++ interactionHtml ++ secT7

/-- `renderCoursewareHtml` (courseware-html.ts:105–687): the document head
(with the escaped title and the section count), the joined section slides,
and the tail holding the shared navigation-and-grading script. -/
def renderCoursewareHtml (courseware : Courseware) : String :=
  let sectionsHtml := String.intercalate "\n"
    (courseware.sections.mapIdx fun index sec =>
      renderSection sec index courseware.sections.length)
  docT0 ++ escapeHtml courseware.title ++ docT1 ++
    Nat.repr courseware.sections.length ++ docT2 ++
    Nat.repr courseware.sections.length ++ docT3 ++ sectionsHtml ++ docT4

/-! ## Outline synthesizer (gemini.ts:47–66, 121–163) -/

/-- `MAX_RETRY` (gemini.ts:19). -/
def MAX_RETRY : Nat := 2

/-- One external text-generation call's outcome: the provider throws, the
response carries no text, or it carries this text. -/
inductive ProviderOutcome where
  | throws
  | retNull
  | retText (s : String)
deriving DecidableEq, Repr

/-- JavaScript `String.prototype.trim`: strip the `\s` class from both
ends. -/
def jsTrim (s : String) : String :=
  String.mk (((s.data.dropWhile jsWsChar).reverse.dropWhile jsWsChar).reverse)

/-- `generateTextWithGemini` (gemini.ts:165–202) for a configured client: its
own try/catch turns a provider throw into `null`; a falsy (empty) text gives
`null`, otherwise the trimmed text is returned.  The prompt is the same on
every call, so the oracle is indexed by the call number. -/
def generateTextWithGemini (oracle : Nat → ProviderOutcome) (call : Nat) :
    Option String :=
  match oracle call with
  | .throws => none
  | .retNull => none
  | .retText t => if t = "" then none else some (jsTrim t)

/-- `pickInteractionHint` (gemini.ts:430–435). -/
def pickInteractionHint (interactionTypes : List InteractionType) (index : Nat) :
    Option InteractionType :=
  if interactionTypes = [] then none
  else interactionTypes.get? (index % interactionTypes.length)

/-- A string-typed field read as `x.key || fallback`: `some` exactly for a
present non-empty string (model output follows the prompted schema, so
non-string truthy values are not modelled). -/
def jsTruthyStrField (j : Json) (key : String) : Option String :=
  match jsonField j key with
  | some (.str s) => if s = "" then none else some s
  | _ => none

/-- A string-typed field read as `x.key ?? fallback`: `some` exactly for a
present non-null string (same schema note as above). -/
def nullishStrField (j : Json) (key : String) : Option String :=
  match jsonField j key with
  | some (.str s) => some s
  | _ => none

/-- The outline built from an accepted parse (gemini.ts:145–155): fresh ids,
`parsed.title ?? topic 互动课件`, per-section fallbacks for missing title,
summary, interaction hint (round-robin) and assets hint. -/
def acceptedOutline (req : GenerationRequest) (uuid : Nat → String) (c : Nat)
    (parsed : Json) (items : List Json) : CourseOutline :=
  let interactionTypes := req.interactionTypes.getD []
  { id := uuid c
    title :=
      match jsonField parsed "title" with
      | some (.str s) => s
      | _ => req.topic ++ " 互动课件"
    sections := items.mapIdx fun index item =>
      { id := uuid (c + 1 + index)
        title := (jsTruthyStrField item "title").getD
          ("第 " ++ Nat.repr (index + 1) ++ " 节")
        summary := (jsTruthyStrField item "summary").getD "请补充该节课程摘要。"
        interactionHint :=
          match nullishStrField item "interactionHint" with
          | some s => some s
          | none => (pickInteractionHint interactionTypes index).map InteractionType.wire
        assetsHint :=
          match nullishStrField item "assetsHint" with
          | some s => some s
          | none => some ("请准备与「" ++ ((jsTruthyStrField item "title").getD req.topic)
              ++ "」相关的插图。") } }

/-- One attempt of the retry loop body (gemini.ts:129–155): a falsy text, a
failed extraction, a missing/empty `sections`, or a caught error all make the
attempt yield nothing (`continue`); otherwise the built outline is accepted.
A non-array `sections` value throws in the `.map` and is caught by the
attempt's catch — the outcome (attempt consumed) is the same `none`. -/
def attemptOutline (oracle : Nat → ProviderOutcome) (req : GenerationRequest)
    (uuid : Nat → String) (c : Nat) (attempt : Nat) : Option CourseOutline :=
  match generateTextWithGemini oracle attempt with
  | none => none
  | some rawText =>
    if rawText = "" then none
    else
      match extractJson rawText with
      | none => none
      | some parsed =>
        match jsonField parsed "sections" with
        | some (.arr items) =>
          if items.isEmpty then none
          else some (acceptedOutline req uuid c parsed items)
        | _ => none

/-- The `for (attempt = 0; attempt <= MAX_RETRY; ...)` loop: first accepted
attempt wins. -/
def outlineLoop (attempt : Nat → Option CourseOutline) :
    List Nat → Option CourseOutline
  | [] => none
  | i :: rest =>
    match attempt i with
    | some o => some o
    | none => outlineLoop attempt rest

/-- `generateOutlineWithGemini` (gemini.ts:121–163): `null` without a
configured client, else the retry loop over attempts `0..MAX_RETRY`. -/
def generateOutlineWithGemini (configured : Bool) (oracle : Nat → ProviderOutcome)
    (req : GenerationRequest) (uuid : Nat → String) (c : Nat) :
    Option CourseOutline :=
  if configured then
    outlineLoop (attemptOutline oracle req uuid c) (List.range (MAX_RETRY + 1))
  else none

/-- The number of provider invocations the loop performs: one per executed
iteration, stopping after the first accepted attempt. -/
def outlineLoopCalls (attempt : Nat → Option CourseOutline) : List Nat → Nat
  | [] => 0
  | i :: rest =>
    1 + (match attempt i with
         | some _ => 0
         | none => outlineLoopCalls attempt rest)

/-- Provider invocations of one `generateOutline` call (0 when unconfigured:
`generateTextWithGemini` returns before calling out). -/
def outlineProviderCalls (configured : Bool) (oracle : Nat → ProviderOutcome)
    (req : GenerationRequest) (uuid : Nat → String) (c : Nat) : Nat :=
  if configured then
    outlineLoopCalls (attemptOutline oracle req uuid c) (List.range (MAX_RETRY + 1))
  else 0

/-- `buildDefaultOutlineSections` (gemini.ts:437–456), as
(title, summary, assetsHint) triples (`Omit<OutlineSection, 'id'>`). -/
def buildDefaultOutlineSections (topic : String) : List (String × String × String) :=
  let safeTopic := if topic = "" then "本课" else topic
  [ ("第一节：主题导入",
     "围绕“" ++ safeTopic ++ "”的背景与重要性进行导入，激发学习兴趣。",
     "展示与“" ++ safeTopic ++ "”相关的引导性图片。"),
    ("第二节：核心内容讲解",
     "详细阐述“" ++ safeTopic ++ "”的关键知识点，并结合示例说明。",
     "准备能体现核心概念的图示或案例插画。"),
    ("第三节：总结与拓展",
     "对“" ++ safeTopic ++ "”进行总结，提出拓展思考或实践建议。",
     "使用概念图或思维导图形式的图片强化记忆。") ]

/-- `generateOutline` (gemini.ts:47–66): the Gemini outline when one is
accepted, else the deterministic 3-section fallback parameterized by the
topic, with round-robin interaction hints. -/
def generateOutline (configured : Bool) (oracle : Nat → ProviderOutcome)
    (req : GenerationRequest) (uuid : Nat → String) (c : Nat) : CourseOutline :=
  match generateOutlineWithGemini configured oracle req uuid c with
  | some outline => outline
  | none =>
    let interactionTypes := req.interactionTypes.getD []
    let sections := (buildDefaultOutlineSections req.topic).mapIdx fun index t =>
      { id := uuid (c + index)
        title := t.1
        summary := t.2.1
        assetsHint := some t.2.2
        interactionHint :=
          (pickInteractionHint interactionTypes index).map InteractionType.wire
        : OutlineSection }
    { id := uuid (c + 3), title := req.topic ++ " 互动课件", sections }

/-! ## Interaction synthesizer (gemini.ts:295–366) -/

/-- `buildInteraction`: `undefined` for an empty requested-types list; else
the type rotates through the list by section index (`?? 'single'` for safety)
and the block is built deterministically; `'open'` and `'single'` both take
the final branch.  Fresh ids come from the `uuid` stream at cursor `c`, in
the source's evaluation order; the returned cursor is the next free one. -/
def buildInteraction (sec : OutlineSection) (index : Nat)
    (interactionTypes : List InteractionType) (uuid : Nat → String) (c : Nat) :
    Option InteractionBlock × Nat :=
  if interactionTypes.isEmpty then (none, c)
  else
    let interactionType :=
      (interactionTypes.get? (index % interactionTypes.length)).getD .single
    if interactionType = InteractionType.truefalse then
      let trueId := uuid c
      let falseId := uuid (c + 1)
      (some
        { id := uuid (c + 2)
          type := QuizType.truefalse
          question := sec.title ++ " 的陈述是否正确？"
          options := [⟨trueId, "正确"⟩, ⟨falseId, "不正确"⟩]
          answers := [trueId]
          explanation := "本节重点为：" ++ sec.summary
          scoring := ⟨5, "section-" ++ Nat.repr (index + 1)⟩ }, c + 3)
    else if interactionType = InteractionType.multi then
      let optionA := uuid c
      let optionB := uuid (c + 1)
      let optionC := uuid (c + 2)
      (some
        { id := uuid (c + 3)
          type := QuizType.multi
          question := "关于“" ++ sec.title ++ "”，以下哪些描述是正确的？"
          options := [⟨optionA, sec.summary⟩, ⟨optionB, "结合课堂活动的应用场景"⟩,
            ⟨optionC, "与主题无关的拓展知识"⟩]
          answers := [optionA, optionB]
          explanation := "正确选项涵盖了本节所需掌握的核心与实践内容。"
          scoring := ⟨15, "section-" ++ Nat.repr (index + 1)⟩ }, c + 4)
    else
      let correctOptionId := uuid c
      (some
        { id := uuid (c + 1)
          type := QuizType.single
          question := sec.title ++ " 的核心要点是什么？"
          options := [⟨correctOptionId, sec.summary⟩,
            ⟨uuid (c + 2), "与 " ++ sec.title ++ " 相关的拓展知识"⟩,
            ⟨uuid (c + 3), "课堂活动安排"⟩]
          answers := [correctOptionId]
          explanation := "正确答案突出“" ++ sec.summary ++ "”。"
          scoring := ⟨10, "section-" ++ Nat.repr (index + 1)⟩ }, c + 4)

/-! ## Courseware compiler and image orchestrator (gemini.ts:68–119, 229–293) -/

/-- `buildSectionBody` (gemini.ts:284–293): title heading, summary paragraph,
audience paragraph, optional tone paragraph; `.filter(Boolean).join('\n')`. -/
def buildSectionBody (sec : OutlineSection) (request : GenerationRequest) : String :=
  let items : List (Option String) :=
    [ some ("<h2>" ++ sec.title ++ "</h2>"),
      some ("<p>" ++ sec.summary ++ "</p>"),
      some ("<p>教学对象：" ++ request.audience ++ "</p>"),
      match request.tone with
      | some t => if t = "" then none else some ("<p>语气：" ++ t ++ "</p>")
      | none => none ]
  String.intercalate "\n" (items.filterMap id)

/-- `buildImagePrompt` (gemini.ts:417–428): `[assetsHint, imageStyle ??
'flat illustration, bright colors'].join(' | ')`; `Array.join` renders an
undefined element as the empty string. -/
def buildImagePrompt (request : GenerationRequest) (sec : OutlineSection) : String :=
  (match sec.assetsHint with | some a => a | none => "") ++ " | " ++
    (request.imageStyle.getD "flat illustration, bright colors")

/-- One external image-generation call's outcome: the provider throws, the
response carries no inline image data, or it carries this base64 payload. -/
inductive ImgOutcome where
  | throws
  | noImage
  | payload (base64 : String)
deriving DecidableEq, Repr

/-- `PLACEHOLDER_IMAGE_BASE` (gemini.ts:16). -/
def PLACEHOLDER_IMAGE_BASE : String := "https://placehold.co/800x600"

/-- JS truthiness of the held api key (`apiKey ?`): an empty string is falsy. -/
def keyTruthy : Option String → Bool
  | none => false
  | some k => k ≠ ""

/-- `generateImageWithGemini` (gemini.ts:243–282): `null` without a client;
a throw is caught to `null` (lines 277–281); a response without inline data
gives `null`; otherwise the payload as a png data URI. -/
def generateImageWithGemini (hasClient : Bool) (outcome : ImgOutcome) :
    Option String :=
  if hasClient then
    match outcome with
    | .throws => none
    | .noImage => none
    | .payload base64 => some ("data:image/png;base64," ++ base64)
  else none

/-- `generateImage` (gemini.ts:229–241): placeholder URL (parameterized by
slide number `index + 1`) without a truthy api key or when the provider gives
no image; otherwise the data URI.  The client exists iff the key is truthy
(gemini.ts:40). -/
def generateImage (apiKey : Option String) (outcome : ImgOutcome)
    (prompt : String) (index : Nat) : String :=
  if keyTruthy apiKey then
    match generateImageWithGemini (keyTruthy apiKey) outcome with
    | some image => image
    | none => PLACEHOLDER_IMAGE_BASE ++ "?text=Slide+" ++ Nat.repr (index + 1)
  else PLACEHOLDER_IMAGE_BASE ++ "?text=Slide+" ++ Nat.repr (index + 1)

/-- The externally visible events of `generateCourseware`'s section loop:
the fixed 1000 ms `waitForNextImage` delay (gemini.ts:115–119) and the image
request for a section index. -/
inductive GenEvent where
  | delay
  | imageCall (index : Nat)
deriving DecidableEq, Repr

/-- The section loop of `generateCourseware` (gemini.ts:72–93): strictly
sequential; before every section except the first the delay runs, then the
image request, then the interaction is synthesized and the section record is
assembled.  Returns the sections, the event trace, and the next uuid
cursor. -/
def buildCoursewareSections (request : GenerationRequest) (apiKey : Option String)
    (imgOracle : Nat → ImgOutcome) (uuid : Nat → String) :
    List OutlineSection → Nat → Nat →
    List CoursewareSection × List GenEvent × Nat
  | [], _, c => ([], [], c)
  | sec :: rest, index, c =>
    let pre : List GenEvent := if 0 < index then [.delay] else []
    let imagePrompt := buildImagePrompt request sec
    let imageUrl := generateImage apiKey (imgOracle index) imagePrompt index
    let (interaction, c1) :=
      buildInteraction sec index (request.interactionTypes.getD []) uuid c
    let s : CoursewareSection :=
      { id := sec.id
        title := sec.title
        body := buildSectionBody sec request
        image := { prompt := imagePrompt, url := imageUrl, alt := sec.title ++ " 插图" }
        interaction := interaction }
    let (secs, evs, c2) :=
      buildCoursewareSections request apiKey imgOracle uuid rest (index + 1) c1
    (s :: secs, pre ++ GenEvent.imageCall index :: evs, c2)

/-- `generateCourseware` (gemini.ts:68–113): runs the section loop, assembles
the courseware value (fresh id, metadata from the request, `generatedAt`
timestamp taken as a parameter), and renders the html.  Also returns the
event trace of the loop's external calls. -/
def generateCourseware (payload : CoursewareBuildRequest) (apiKey : Option String)
    (imgOracle : Nat → ImgOutcome) (uuid : Nat → String) (c : Nat)
    (generatedAt : String) : CoursewareArtifact × List GenEvent :=
  let (sections, events, c1) :=
    buildCoursewareSections payload.request apiKey imgOracle uuid
      payload.outline.sections 0 c
  let courseware : Courseware :=
    { id := uuid c1
      title := payload.outline.title
      metadata :=
        { topic := payload.request.topic
          audience := payload.request.audience
          objectives := payload.request.objectives.getD []
          generatedAt := generatedAt }
      sections := sections }
  ({ courseware := courseware, html := renderCoursewareHtml courseware }, events)

/-! ## The emitted grading script (courseware-html.ts:563–684)

The script emitted into every rendered document is embedded as a state
machine: per interaction the flagged-correct option values are fixed by the
markup (`data-correct`), the mutable state is each interaction's
`interaction--correct` class and the shared `correctCount`, and the events
are a submit with the then-selected values, or a reset. -/

/-- The per-document constants: for each interaction, the option values
flagged `data-correct="true"`. -/
structure QuizDoc where
  correctVals : List (List String)
deriving DecidableEq, Repr

/-- The script's mutable state: per-interaction `interaction--correct` flags
and the shared running `correctCount`. -/
structure QuizState where
  flags : List Bool
  count : Nat
deriving DecidableEq, Repr

/-- A user event on interaction `j`: submit with the currently selected
option values, or reset. -/
inductive QuizEvent where
  | submit (j : Nat) (selected : List String)
  | reset (j : Nat)
deriving DecidableEq, Repr

/-- The submit handler's correctness test (courseware-html.ts:642):
`selected.length === correct.length && selected.every(v => correct.includes(v))`. -/
def quizIsCorrect (correct selected : List String) : Bool :=
  selected.length = correct.length && selected.all (fun v => correct.contains v)

/-- The initial state on document load: no interaction correct, count 0. -/
def quizInit (doc : QuizDoc) : QuizState :=
  ⟨doc.correctVals.map fun _ => false, 0⟩

/-- One event step (courseware-html.ts:638–678).  On submit: `wasCorrect` is
the current class, `isCorrect` the test above; the class is replaced by the
new verdict and the count moves only on a transition, with
`Math.max(0, count - 1)` = truncated subtraction.  On reset: the class is
cleared, a correct interaction decrements the count. -/
def quizStep (doc : QuizDoc) (s : QuizState) : QuizEvent → QuizState
  | .submit j selected =>
    let wasCorrect := s.flags.getD j false
    let correct := doc.correctVals.getD j []
    let isCorrect := quizIsCorrect correct selected
    { flags := s.flags.set j isCorrect
      count :=
        if !wasCorrect && isCorrect then s.count + 1
        else if wasCorrect && !isCorrect then s.count - 1
        else s.count }
  | .reset j =>
    let wasCorrect := s.flags.getD j false
    { flags := s.flags.set j false
      count := if wasCorrect then s.count - 1 else s.count }

/-! ## Inputs and spec-side descriptions used by the claim theorems -/

/-- The placeholder image URL for slide `n` (1-based):
`https://placehold.co/800x600?text=Slide+{n}`. -/
def placeholderUrl (n : Nat) : String :=
  PLACEHOLDER_IMAGE_BASE ++ "?text=Slide+" ++ Nat.repr n

/-- The pacing pattern the spec describes, starting at section `idx` with `n`
sections remaining: no delay before the loop's first image request
(`idx = 0`), exactly one 1000 ms delay before every later request, requests
in strictly increasing section order. -/
def pacedFrom (idx : Nat) : Nat → List GenEvent
  | 0 => []
  | n + 1 => (if 0 < idx then [GenEvent.delay] else []) ++
      GenEvent.imageCall idx :: pacedFrom (idx + 1) n

/-- Two outline sections that agree everywhere except possibly in
`interactionHint`. -/
def hintAgnostic (s1 s2 : OutlineSection) : Prop :=
  s1.id = s2.id ∧ s1.title = s2.title ∧ s1.summary = s2.summary ∧
    s1.assetsHint = s2.assetsHint

/-- A concrete id stream. -/
def uuidW : Nat → String := fun n => "id" ++ Nat.repr n

/-- A concrete brief. -/
def reqW : GenerationRequest :=
  { topic := "光合作用", audience := "小学高年级学生",
    interactionTypes := some [InteractionType.single] }

/-- A concrete outline section. -/
def secW : OutlineSection :=
  { id := "s1", title := "光合作用", summary := "叶绿体将光能转化为化学能" }

/-- An outline whose only section carries an interaction hint. -/
def o1W : CourseOutline :=
  { id := "o", title := "T",
    sections := [⟨"s", "ti", "su", some "multi", none⟩] }

/-- The same outline with the hint removed. -/
def o2W : CourseOutline :=
  { id := "o", title := "T",
    sections := [⟨"s", "ti", "su", none, none⟩] }

/-- A rendered document with two interactions, one correct value each. -/
def docW : QuizDoc := ⟨[["a"], ["b"]]⟩

/-- A provider that answers with parseable JSON holding a single section. -/
def c2oracle : Nat → ProviderOutcome :=
  fun _ => ProviderOutcome.retText
    "\x7b\"title\":\"T\",\"sections\":[\x7b\"title\":\"a\",\"summary\":\"b\"\x7d]\x7d"

/-- The spec's fenced-extraction example input. -/
def c4input : String := "noise \x60\x60\x60json\n\x7b\"a\":1\x7d\n\x60\x60\x60 noise"

/-- A brief with no tone and no interactions, for the injection scenario. -/
def c1req : GenerationRequest := { topic := "t", audience := "A" }

/-- A model-produced section whose title is a script tag and whose summary
contains that title. -/
def c1sec : OutlineSection :=
  { id := "sec-1", title := "<script>alert(99)</script>",
    summary := "a<script>alert(99)</script>", assetsHint := some "hint" }

/-- The build request carrying `c1sec`. -/
def c1payload : CoursewareBuildRequest :=
  { outline := { id := "o", title := "T", sections := [c1sec] }, request := c1req }

/-! ## Theorems -/

/-- The cleanup passes of the renderer preserve the trace equality below:
the section loop's external events are exactly the paced pattern. -/
theorem buildCoursewareSections_events (request : GenerationRequest)
    (apiKey : Option String) (imgOracle : Nat → ImgOutcome) (uuid : Nat → String) :
    ∀ (l : List OutlineSection) (idx c : Nat),
      (buildCoursewareSections request apiKey imgOracle uuid l idx c).2.1 =
        pacedFrom idx l.length
  | [], _, _ => rfl
  | sec :: rest, idx, c => by
    simp only [buildCoursewareSections, pacedFrom, List.length_cons]
    rw [buildCoursewareSections_events request apiKey imgOracle uuid rest (idx + 1)]

/-- The paced pattern holds one delay per request except the first of the
whole loop. -/
theorem pacedFrom_count_delay :
    ∀ (n idx : Nat), (pacedFrom idx n).count GenEvent.delay =
      if idx = 0 then n - 1 else n
  | 0, idx => by simp [pacedFrom]
  | n + 1, idx => by
    by_cases h : idx = 0
    · subst h
      simp [pacedFrom, pacedFrom_count_delay n 1, List.count_cons, beq_iff_eq]
    · simp [pacedFrom, Nat.pos_of_ne_zero h, h,
        pacedFrom_count_delay n (idx + 1), List.count_cons, List.count_append,
        beq_iff_eq]

/-- C6: during one `generateCourseware` call over an outline with `n`
sections, the section loop's event trace is exactly the paced pattern — the
1000 ms delay never runs before the first section's image request, runs once
before each subsequent request, and request `i + 1` follows request `i` — so
the delay is executed exactly `n - 1` times. -/
theorem C6_pacing (payload : CoursewareBuildRequest) (apiKey : Option String)
    (imgOracle : Nat → ImgOutcome) (uuid : Nat → String) (c : Nat)
    (generatedAt : String) :
    (generateCourseware payload apiKey imgOracle uuid c generatedAt).2 =
      pacedFrom 0 payload.outline.sections.length ∧
    ((generateCourseware payload apiKey imgOracle uuid c generatedAt).2).count
        GenEvent.delay = payload.outline.sections.length - 1 := by
  have h : (generateCourseware payload apiKey imgOracle uuid c generatedAt).2 =
      pacedFrom 0 payload.outline.sections.length := by
    simp only [generateCourseware]
    exact buildCoursewareSections_events _ _ _ _ _ _ _
  refine ⟨h, ?_⟩
  rw [h, pacedFrom_count_delay]
  simp

/-- C7: for the section at 0-based index `i`, a missing credential, a
provider failure, or a response with no image payload each yield the
placeholder URL parameterized by slide number `i + 1`, with no fault raised
(the function is total); a returned payload yields it encoded as a png data
URI (unless the configured key is the empty string, which JS treats as
falsy, i.e. unconfigured). -/
theorem C7_image_fallbacks (k prompt b : String) (index : Nat) (oc : ImgOutcome) :
    generateImage none oc prompt index = placeholderUrl (index + 1) ∧
    generateImage (some k) ImgOutcome.throws prompt index = placeholderUrl (index + 1) ∧
    generateImage (some k) ImgOutcome.noImage prompt index = placeholderUrl (index + 1) ∧
    generateImage (some k) (ImgOutcome.payload b) prompt index =
      (if k = "" then placeholderUrl (index + 1)
       else "data:image/png;base64," ++ b) := by
  refine ⟨rfl, ?_, ?_, ?_⟩ <;>
    · simp only [generateImage, generateImageWithGemini, keyTruthy, placeholderUrl]
      by_cases hk : k = "" <;> simp [hk]

/-- C5: every interaction block the synthesizer produces satisfies the
structural invariants: each answer id occurs among the options' ids; a
`truefalse` block has exactly 2 options and 1 answer; a `single` block has
exactly 1 answer, the first-listed option's id; a `multi` block has exactly
2 answers, both present among the options. -/
theorem C5_interaction_invariants (sec : OutlineSection) (index : Nat)
    (types : List InteractionType) (uuid : Nat → String) (c c' : Nat)
    (b : InteractionBlock)
    (h : buildInteraction sec index types uuid c = (some b, c')) :
    (∀ a ∈ b.answers, a ∈ b.options.map InteractionOption.id) ∧
    (b.type = QuizType.truefalse → b.options.length = 2 ∧ b.answers.length = 1) ∧
    (b.type = QuizType.single → b.answers.length = 1 ∧
      ∃ o rest, b.options = o :: rest ∧ b.answers = [o.id]) ∧
    (b.type = QuizType.multi → b.answers.length = 2 ∧
      ∀ a ∈ b.answers, a ∈ b.options.map InteractionOption.id) := by
  unfold buildInteraction at h
  by_cases hE : types.isEmpty = true
  · rw [if_pos hE] at h
    simp at h
  · rw [if_neg hE] at h
    by_cases h1 : (types.get? (index % types.length)).getD InteractionType.single =
        InteractionType.truefalse
    · rw [if_pos h1] at h
      simp only [Prod.mk.injEq, Option.some.injEq] at h
      obtain ⟨hb, -⟩ := h
      subst hb
      refine ⟨by simp, fun _ => by simp, fun hq => by simp at hq, fun hq => by simp at hq⟩
    · rw [if_neg h1] at h
      by_cases h2 : (types.get? (index % types.length)).getD InteractionType.single =
          InteractionType.multi
      · rw [if_pos h2] at h
        simp only [Prod.mk.injEq, Option.some.injEq] at h
        obtain ⟨hb, -⟩ := h
        subst hb
        refine ⟨by simp, fun hq => by simp at hq, fun hq => by simp at hq,
          fun _ => ⟨by simp, by simp⟩⟩
      · rw [if_neg h2] at h
        simp only [Prod.mk.injEq, Option.some.injEq] at h
        obtain ⟨hb, -⟩ := h
        subst hb
        refine ⟨by simp, fun hq => by simp at hq, fun _ => ⟨by simp, ⟨_, _, rfl, rfl⟩⟩,
          fun hq => by simp at hq⟩

/-- Witness for C5 at a concrete multi-choice input: the produced block has
exactly two answers. -/
theorem C5_interaction_invariants_witness :
    (((buildInteraction secW 0 [InteractionType.multi] uuidW 0).1).getD
        ⟨"", QuizType.single, "", [], [], "", ⟨0, ""⟩⟩).answers.length = 2 := by
  have h := C5_interaction_invariants secW 0 [InteractionType.multi] uuidW 0 4
    (((buildInteraction secW 0 [InteractionType.multi] uuidW 0).1).getD
        ⟨"", QuizType.single, "", [], [], "", ⟨0, ""⟩⟩) (by rfl)
  exact (h.2.2.2 rfl).1

/-- C10: when the rotation selects the requested type `'open'`, the
synthesizer does not return `undefined`: it falls through to the default
branch and produces a `single` block with 3 options, exactly 1 answer equal
to the first option's id, and 10 points. -/
theorem C10_open_coerced (sec : OutlineSection) (index : Nat)
    (types : List InteractionType) (uuid : Nat → String) (c : Nat)
    (hopen : types.get? (index % types.length) = some InteractionType.openq) :
    ∃ b, buildInteraction sec index types uuid c = (some b, c + 4) ∧
      b.type = QuizType.single ∧ b.options.length = 3 ∧
      (∃ o rest, b.options = o :: rest ∧ b.answers = [o.id]) ∧
      b.scoring.points = 10 := by
  have hne : ¬ types.isEmpty := by
    intro he
    rw [List.isEmpty_iff] at he
    subst he
    simp at hopen
  unfold buildInteraction
  rw [if_neg hne, hopen]
  simp only [Option.getD_some]
  rw [if_neg (by decide), if_neg (by decide)]
  exact ⟨_, rfl, rfl, by simp, ⟨_, _, rfl, rfl⟩, rfl⟩

/-- Witness for C10 at the one-element list `['open']`. -/
theorem C10_open_coerced_witness :
    ∃ b, buildInteraction secW 0 [InteractionType.openq] uuidW 0 = (some b, 4) ∧
      b.type = QuizType.single ∧ b.options.length = 3 ∧
      (∃ o rest, b.options = o :: rest ∧ b.answers = [o.id]) ∧
      b.scoring.points = 10 :=
  C10_open_coerced secW 0 [InteractionType.openq] uuidW 0 (by rfl)

/-- `buildInteraction` reads only the section's title and summary (besides
the index, the requested types and the id stream). -/
theorem buildInteraction_depends (s1 s2 : OutlineSection) (index : Nat)
    (types : List InteractionType) (uuid : Nat → String) (c : Nat)
    (ht : s1.title = s2.title) (hs : s1.summary = s2.summary) :
    buildInteraction s1 index types uuid c = buildInteraction s2 index types uuid c := by
  unfold buildInteraction
  rw [ht, hs]

/-- The section loop is unchanged when the outline sections differ only in
their `interactionHint` fields. -/
theorem buildCoursewareSections_hints (request : GenerationRequest)
    (apiKey : Option String) (imgOracle : Nat → ImgOutcome) (uuid : Nat → String) :
    ∀ {l1 l2 : List OutlineSection}, List.Forall₂ hintAgnostic l1 l2 →
      ∀ (idx c : Nat),
      buildCoursewareSections request apiKey imgOracle uuid l1 idx c =
        buildCoursewareSections request apiKey imgOracle uuid l2 idx c := by
  intro l1 l2 hf
  induction hf with
  | nil => intro idx c; rfl
  | @cons a b t1 t2 hpair htail ih =>
    intro idx c
    obtain ⟨hid, ht, hs, ha⟩ := hpair
    have hbody : buildSectionBody a request = buildSectionBody b request := by
      unfold buildSectionBody
      rw [ht, hs]
    have hprompt : buildImagePrompt request a = buildImagePrompt request b := by
      unfold buildImagePrompt
      rw [ha]
    have hint := buildInteraction_depends a b idx (request.interactionTypes.getD [])
      uuid c ht hs
    simp only [buildCoursewareSections]
    rw [hbody, hprompt, hint, hid, ht, ih]

/-- C9: the `interactionHint` fields of outline sections have no influence on
`generateCourseware`'s output — for two outlines that differ only in their
sections' `interactionHint` values (same title), the produced artifacts are
identical, so in particular every section's interaction block agrees in
type, question, option labels, answer positions, explanation and scoring. -/
theorem C9_hint_agnostic (o1 o2 : CourseOutline) (req : GenerationRequest)
    (apiKey : Option String) (imgOracle : Nat → ImgOutcome) (uuid : Nat → String)
    (c : Nat) (generatedAt : String)
    (htitle : o1.title = o2.title)
    (hsecs : List.Forall₂ hintAgnostic o1.sections o2.sections) :
    generateCourseware ⟨o1, req⟩ apiKey imgOracle uuid c generatedAt =
      generateCourseware ⟨o2, req⟩ apiKey imgOracle uuid c generatedAt := by
  simp only [generateCourseware]
  rw [buildCoursewareSections_hints req apiKey imgOracle uuid hsecs 0 c, htitle]

/-- Witness for C9 at two concrete outlines differing only in one hint. -/
theorem C9_hint_agnostic_witness :
    generateCourseware ⟨o1W, reqW⟩ none (fun _ => ImgOutcome.noImage) uuidW 0 "ts" =
      generateCourseware ⟨o2W, reqW⟩ none (fun _ => ImgOutcome.noImage) uuidW 0 "ts" :=
  C9_hint_agnostic o1W o2W reqW none (fun _ => ImgOutcome.noImage) uuidW 0 "ts" rfl
    (List.Forall₂.cons ⟨rfl, rfl, rfl, rfl⟩ List.Forall₂.nil)

/-- Reading back the slot a `List.set` just wrote. -/
theorem getD_set_self (l : List Bool) (j : Nat) (b : Bool) (h : j < l.length) :
    (l.set j b).getD j false = b := by
  rw [List.getD_eq_getElem _ false (by simpa using h)]
  exact List.getElem_set_self (by simpa using h)

/-- A true slot makes the count of true positive. -/
theorem count_true_pos (l : List Bool) (j : Nat) (hj : j < l.length)
    (hv : l.getD j false = true) : 1 ≤ l.count true := by
  rw [List.getD_eq_getElem _ false hj] at hv
  exact List.count_pos_iff.mpr (hv ▸ List.getElem_mem hj)

/-- How `List.set` moves the count of true. -/
theorem count_true_set (l : List Bool) (j : Nat) (b : Bool) (hj : j < l.length) :
    (l.set j b).count true + (if l.getD j false = true then 1 else 0) =
      l.count true + (if b = true then 1 else 0) := by
  induction l generalizing j with
  | nil => simp at hj
  | cons x xs ih =>
    cases j with
    | zero =>
      cases x <;> cases b <;> simp [List.count_cons]
    | succ n =>
      have hn : n < xs.length := by simpa using hj
      have hh := ih n hn
      simp only [List.set_cons_succ, List.count_cons, List.getD_cons_succ]
      omega

/-- C8: in the emitted grading script, the running correct-count changes only
on state transitions: a submission moving an interaction from not-correct to
correct increments it by one; one moving it from correct to not-correct (or
a reset of a correct interaction) decrements it by one; a repeated identical
correct submission leaves it unchanged; and the invariant "count = number of
correct interactions" is preserved by every submit and reset. -/
theorem C8_score_transitions (doc : QuizDoc) (s : QuizState) (j : Nat)
    (sel : List String)
    (hinv : s.count = s.flags.count true ∧ s.flags.length = doc.correctVals.length)
    (hj : j < s.flags.length) :
    ((s.flags.getD j false = false →
        quizIsCorrect (doc.correctVals.getD j []) sel = true →
        (quizStep doc s (.submit j sel)).count = s.count + 1) ∧
     (s.flags.getD j false = true →
        quizIsCorrect (doc.correctVals.getD j []) sel = false →
        (quizStep doc s (.submit j sel)).count + 1 = s.count) ∧
     (s.flags.getD j false = quizIsCorrect (doc.correctVals.getD j []) sel →
        (quizStep doc s (.submit j sel)).count = s.count)) ∧
    ((s.flags.getD j false = true →
        (quizStep doc s (.reset j)).count + 1 = s.count) ∧
     (s.flags.getD j false = false →
        (quizStep doc s (.reset j)).count = s.count)) ∧
    ((quizStep doc (quizStep doc s (.submit j sel)) (.submit j sel)).count =
      (quizStep doc s (.submit j sel)).count) ∧
    ((quizStep doc s (.submit j sel)).count =
        (quizStep doc s (.submit j sel)).flags.count true ∧
      (quizStep doc s (.submit j sel)).flags.length = doc.correctVals.length) ∧
    ((quizStep doc s (.reset j)).count = (quizStep doc s (.reset j)).flags.count true ∧
      (quizStep doc s (.reset j)).flags.length = doc.correctVals.length) := by
  obtain ⟨hc, hl⟩ := hinv
  have hpos : s.flags.getD j false = true → 1 ≤ s.count :=
    fun hw => hc ▸ count_true_pos s.flags j hj hw
  refine ⟨⟨?_, ?_, ?_⟩, ⟨?_, ?_⟩, ?_, ⟨?_, ?_⟩, ⟨?_, ?_⟩⟩
  · intro hw hi
    simp only [quizStep]
    rw [hw, hi]
    simp
  · intro hw hi
    have := hpos hw
    simp only [quizStep]
    rw [hw, hi]
    simp
    omega
  · intro hwi
    cases hb : quizIsCorrect (doc.correctVals.getD j []) sel
    all_goals rw [hb] at hwi
    all_goals simp only [quizStep]
    all_goals rw [hwi, hb]
    all_goals simp
  · intro hw
    have := hpos hw
    simp only [quizStep]
    rw [hw]
    simp
    omega
  · intro hw
    simp only [quizStep]
    rw [hw]
    simp
  · cases hb : quizIsCorrect (doc.correctVals.getD j []) sel
    all_goals simp only [quizStep]
    all_goals rw [hb]
    all_goals rw [getD_set_self s.flags j _ hj]
    all_goals simp
  · have hcount := count_true_set s.flags j
      (quizIsCorrect (doc.correctVals.getD j []) sel) hj
    cases hb : s.flags.getD j false <;>
      cases hi : quizIsCorrect (doc.correctVals.getD j []) sel <;>
      rw [hb, hi] at hcount <;>
      simp only [quizStep] <;> rw [hb, hi] <;>
      simp at hcount ⊢ <;> omega
  · simp [quizStep, hl]
  · have hcount := count_true_set s.flags j false hj
    cases hb : s.flags.getD j false <;>
      rw [hb] at hcount <;>
      simp only [quizStep] <;> rw [hb] <;>
      simp at hcount ⊢ <;> omega
  · simp [quizStep, hl]

/-- Witness for C8: a correct first submission on a fresh two-interaction
document increments the count from 0 to 1. -/
theorem C8_score_transitions_witness :
    (quizStep docW ⟨[false, false], 0⟩ (QuizEvent.submit 0 ["a"])).count = 0 + 1 := by
  have h := C8_score_transitions docW ⟨[false, false], 0⟩ 0 ["a"] ⟨rfl, rfl⟩
    (by decide)
  exact h.1.1 rfl rfl

/-- C3: during one `generateOutline` call with a configured client, the
text provider is invoked at most `MAX_RETRY + 1 = 3` times; while the first
attempts are unusable (extraction failed, zero sections, or a caught error)
the loop moves on to the next attempt; the first usable attempt stops the
loop after exactly that many invocations; and a provider throw is caught,
consumes its attempt (the attempt yields nothing) and is never propagated —
the embedding is a total function. -/
theorem C3_retry_bounds (oracle : Nat → ProviderOutcome) (req : GenerationRequest)
    (uuid : Nat → String) (c : Nat) :
    outlineProviderCalls true oracle req uuid c ≤ MAX_RETRY + 1 ∧
    (∀ i, i < MAX_RETRY → (∀ k, k ≤ i → attemptOutline oracle req uuid c k = none) →
      i + 2 ≤ outlineProviderCalls true oracle req uuid c) ∧
    (∀ i, i ≤ MAX_RETRY → (∀ k, k < i → attemptOutline oracle req uuid c k = none) →
      attemptOutline oracle req uuid c i ≠ none →
      outlineProviderCalls true oracle req uuid c = i + 1) ∧
    (∀ i, oracle i = ProviderOutcome.throws →
      attemptOutline oracle req uuid c i = none) := by
  have hr : outlineProviderCalls true oracle req uuid c =
      outlineLoopCalls (attemptOutline oracle req uuid c) [0, 1, 2] := rfl
  refine ⟨?_, ?_, ?_, ?_⟩
  · rw [hr]
    cases h0 : attemptOutline oracle req uuid c 0 <;>
      cases h1 : attemptOutline oracle req uuid c 1 <;>
      cases h2 : attemptOutline oracle req uuid c 2 <;>
      simp [outlineLoopCalls, h0, h1, h2, MAX_RETRY]
  · intro i hi hall
    rw [hr]
    simp only [MAX_RETRY] at hi
    interval_cases i
    · have h0 := hall 0 (by omega)
      cases h1 : attemptOutline oracle req uuid c 1 <;>
        cases h2 : attemptOutline oracle req uuid c 2 <;>
        simp [outlineLoopCalls, h0, h1, h2]
    · have h0 := hall 0 (by omega)
      have h1 := hall 1 (by omega)
      cases h2 : attemptOutline oracle req uuid c 2 <;>
        simp [outlineLoopCalls, h0, h1, h2]
  · intro i hi hprev hsome
    rw [hr]
    simp only [MAX_RETRY] at hi
    interval_cases i
    · cases h0 : attemptOutline oracle req uuid c 0
      · exact absurd h0 hsome
      · simp [outlineLoopCalls, h0]
    · cases h1 : attemptOutline oracle req uuid c 1
      · exact absurd h1 hsome
      · have h0 := hprev 0 (by omega)
        simp [outlineLoopCalls, h0, h1]
    · cases h2 : attemptOutline oracle req uuid c 2
      · exact absurd h2 hsome
      · have h0 := hprev 0 (by omega)
        have h1 := hprev 1 (by omega)
        simp [outlineLoopCalls, h0, h1, h2]
  · intro i hthrow
    simp [attemptOutline, generateTextWithGemini, hthrow]

/-- Witness for C3 at an always-null and an always-throwing provider. -/
theorem C3_retry_bounds_witness :
    outlineProviderCalls true (fun _ => ProviderOutcome.retNull) reqW uuidW 0 ≤
      MAX_RETRY + 1 ∧
    attemptOutline (fun _ => ProviderOutcome.throws) reqW uuidW 0 0 = none :=
  ⟨(C3_retry_bounds (fun _ => ProviderOutcome.retNull) reqW uuidW 0).1,
   (C3_retry_bounds (fun _ => ProviderOutcome.throws) reqW uuidW 0).2.2.2 0 rfl⟩

/-- Counterexample for C2 as stated: a provider returning well-formed JSON
with a single section makes `generateOutline` return a 1-section outline, so
"at least 3 sections for every provider behaviour" is false. -/
theorem C2_short_outline_counterexample :
    (generateOutline true c2oracle reqW uuidW 0).sections.length < 3 := by
  have h : (generateOutline true c2oracle reqW uuidW 0).sections.length = 1 := rfl
  omega

/-- C2 (amended): when the provider is unconfigured, or every attempt fails
or yields unusable output, `generateOutline` returns the deterministic
fallback — exactly 3 sections and the non-empty title `topic + " 互动课件"`.
(When an attempt is accepted, the outline instead carries the model's
sections, possibly fewer than 3, and the model's title, possibly empty.) -/
theorem C2_amended_fallback (configured : Bool) (oracle : Nat → ProviderOutcome)
    (req : GenerationRequest) (uuid : Nat → String) (c : Nat)
    (h : configured = false ∨
      ∀ i, i ≤ MAX_RETRY → attemptOutline oracle req uuid c i = none) :
    3 ≤ (generateOutline configured oracle req uuid c).sections.length ∧
    (generateOutline configured oracle req uuid c).title =
      req.topic ++ " 互动课件" ∧
    (generateOutline configured oracle req uuid c).title ≠ "" := by
  have hnone : generateOutlineWithGemini configured oracle req uuid c = none := by
    rcases h with h | h
    · simp [generateOutlineWithGemini, h]
    · cases configured with
      | false => simp [generateOutlineWithGemini]
      | true =>
        have h0 := h 0 (by simp [MAX_RETRY])
        have h1 := h 1 (by simp [MAX_RETRY])
        have h2 := h 2 (by simp [MAX_RETRY])
        have hrange : List.range (MAX_RETRY + 1) = [0, 1, 2] := rfl
        simp [generateOutlineWithGemini, hrange, outlineLoop, h0, h1, h2]
  refine ⟨?_, ?_, ?_⟩
  · simp only [generateOutline, hnone]
    rfl
  · simp only [generateOutline, hnone]
  · simp only [generateOutline, hnone]
    intro he
    have hlen := congrArg String.length he
    rw [String.length_append] at hlen
    have h5 : (" 互动课件" : String).length = 5 := rfl
    have h0 : ("" : String).length = 0 := rfl
    omega

/-- Witness for C2 amended at an unconfigured client. -/
theorem C2_amended_fallback_witness :
    3 ≤ (generateOutline false c2oracle reqW uuidW 0).sections.length ∧
    (generateOutline false c2oracle reqW uuidW 0).title =
      reqW.topic ++ " 互动课件" ∧
    (generateOutline false c2oracle reqW uuidW 0).title ≠ "" :=
  C2_amended_fallback false c2oracle reqW uuidW 0 (Or.inl rfl)

/-- C4: the JSON extractor equals the spec's pipeline — search window = the
fenced block's contents when a json fence is present, else the whole text;
within the window slice from the first `{` to the last `}` inclusive and
parse; a missing brace or a parse failure yields `none` (a value, never a
thrown fault), otherwise the parsed object. -/
theorem C4_extractor_characterization (input : String) :
    extractJson input = (braceSlice (fenceWindow input)).bind jsonParse ∧
    (braceSlice (fenceWindow input) = none → extractJson input = none) ∧
    (∀ s, braceSlice (fenceWindow input) = some s →
      extractJson input = jsonParse s) := by
  have hmain : extractJson input = (braceSlice (fenceWindow input)).bind jsonParse := by
    by_cases he : input = ""
    · subst he
      rfl
    · unfold extractJson fenceWindow braceSlice
      rw [if_neg he]
      cases hf : fenceScan input.data with
      | none =>
        cases hi : idxOf '\x7b' input.data <;>
          cases hj : lastIdxOf '\x7d' input.data <;>
          simp [hf, hi, hj]
      | some w =>
        cases hi : idxOf '\x7b' w <;>
          cases hj : lastIdxOf '\x7d' w <;>
          simp [hf, hi, hj]
  refine ⟨hmain, ?_, ?_⟩
  · intro h
    rw [hmain, h]
    rfl
  · intro s hs
    rw [hmain, hs]
    rfl

/-- Witness for C4 at the spec's fenced example. -/
theorem C4_extractor_characterization_witness :
    extractJson c4input = jsonParse "\x7b\"a\":1\x7d" :=
  (C4_extractor_characterization c4input).2.2 "\x7b\"a\":1\x7d" rfl


/-- The courseware value compiled from `c1payload` (unconfigured image
provider, id stream `uuidW`, timestamp "ts"). -/
def c1cw : Courseware :=
  { id := "id0"
    title := "T"
    metadata := { topic := "t", audience := "A", objectives := [], generatedAt := "ts" }
    sections := [{ id := "sec-1"
                   title := "<script>alert(99)</script>"
                   body := "<h2><script>alert(99)</script></h2>\n<p>a<script>alert(99)</script></p>\n<p>教学对象：A</p>"
                   image := { prompt := "hint | flat illustration, bright colors"
                              url := "https://placehold.co/800x600?text=Slide+1"
                              alt := "<script>alert(99)</script> 插图" }
                   interaction := none }] }

set_option maxRecDepth 8000 in
/-- C1 (code bug): for the compiled courseware of a section whose
model-produced title is `<script>alert(99)</script>` and whose summary
contains that title, the renderer's cleanup removes the title heading but
keeps the raw summary paragraph verbatim, so the rendered document contains
the title raw — as an executable tag — and not only as escaped text. -/
theorem C1_title_injection :
    cleanSectionBody (buildSectionBody c1sec c1req) c1sec.title =
      "\n<p>a<script>alert(99)</script></p>\n" ∧
    ∃ pre post,
      ((generateCourseware c1payload none (fun _ => ImgOutcome.noImage) uuidW 0
          "ts").1).html =
        pre ++ "<script>alert(99)</script>" ++ post := by
  refine ⟨rfl, ?_⟩
  have h1 : ((generateCourseware c1payload none (fun _ => ImgOutcome.noImage)
      uuidW 0 "ts").1).html = renderCoursewareHtml c1cw := rfl
  have hsec : String.intercalate "\n"
      (c1cw.sections.mapIdx fun index s => renderSection s index
        c1cw.sections.length) =
      (secT0 ++ "0" ++ secT1 ++ "https://placehold.co/800x600?text=Slide+1" ++
        secT2 ++ "&lt;script&gt;alert(99)&lt;/script&gt; 插图" ++ secT3 ++ "1" ++
        secT4 ++ "1" ++ secT5 ++ "\n<p>a") ++
        ("<script>alert(99)</script>" ++ ("</p>\n" ++ secT6 ++ secT7)) := rfl
  refine ⟨docT0 ++ "T" ++ docT1 ++ "1" ++ docT2 ++ "1" ++ docT3 ++
      (secT0 ++ "0" ++ secT1 ++ "https://placehold.co/800x600?text=Slide+1" ++
        secT2 ++ "&lt;script&gt;alert(99)&lt;/script&gt; 插图" ++ secT3 ++ "1" ++
        secT4 ++ "1" ++ secT5 ++ "\n<p>a"),
    "</p>\n" ++ secT6 ++ secT7 ++ docT4, ?_⟩
  rw [h1]
  simp only [renderCoursewareHtml]
  rw [hsec]
  rw [show escapeHtml c1cw.title = "T" from rfl,
      show Nat.repr c1cw.sections.length = "1" from rfl]
  simp only [String.append_assoc]
